import Mathlib

/-!
Verification of the porcupine windowing core: a shallow embedding of the
event queue / re-entrancy discipline (`src/window.rs`), the window procedure
(`src/wndproc.rs`), the window counter (`src/client.rs`) and the reactor
loop (`src/reactor.rs`), together with theorems settling the specification
claims about them.

Machine integers are modelled as `Nat` with explicit bounds where overflow
matters (`u32Max`).  Fallible code (Rust panics and aborts) is modelled with
`Option` and an explicit result type `CResult` distinguishing normal return,
unwinding panic (with its payload and the state observable after unwinding),
and process abort.
-/

namespace Porcupine

/-- Largest value of a Rust `u32`; `checked_add(1)` fails exactly here. -/
def u32Max : Nat := 4294967295

/-- Events delivered to user handlers (`src/event.rs`).  The hidden
`__NonExhaustive(&'a ())` variant carries no information beyond its tag. -/
inductive Event where
  | created
  | nonExhaustive
deriving DecidableEq

/-- Result of running a piece of Rust code that may panic or abort.
`panicked payload st` is an unwinding panic: `payload` models the opaque
`Box<dyn Any + Send>` payload (as a `Nat` tag) and `st` is the state
observable after unwinding (interior-mutable cells keep their writes).
`aborted` is a process abort (no observable state). -/
inductive CResult (α : Type) where
  | ok : α → CResult α
  | panicked : Nat → α → CResult α
  | aborted : CResult α
deriving DecidableEq

/-- Panic payload tag for a `RefCell` `BorrowMutError` (double mutable borrow
of the message queue). -/
def borrowPayload : Nat := 1

/-- Panic payload tag for the guard's `Re-entrancy count is not set.` case. -/
def countPayload : Nat := 2

/-- Panic payload tag for the `Re-entrancy count overflowed.` expect. -/
def overflowPayload : Nat := 3

/-- State of one `WindowData` (`src/window.rs`, lines 705–730).

* `queue` models `message_queue: RefCell<VecDeque<Event>>` (front at head);
* `queueBorrowed` is the `RefCell` dynamic borrow flag, true exactly while
  `process` holds its `borrow_mut` guard;
* `rentrancyCount` models `rentrancy_count: Cell<Option<NonZeroU32>>`, with
  `None` represented by `0` (the `NonZeroU32` type guarantees stored values
  are never zero, so the encoding is lossless);
* `panicSlot` models `panic: Cell<Option<Box<dyn Any + Send>>>`;
* `delivered` is ghost instrumentation recording, in order, every event
  handed to `class_data.run_handler`. -/
structure WinState where
  queue : List Event
  queueBorrowed : Bool
  rentrancyCount : Nat
  panicSlot : Option Nat
  delivered : List Event
deriving DecidableEq

/-- A user event handler (the closure stored in `ClassData`).  It receives
the event and may act on the window state through the public API; it can
return normally, panic, or abort. -/
abbrev Handler := Event → WinState → CResult WinState

/-- The state `WindowData::new` builds (`src/window.rs`, lines 768–787):
empty queue, re-entrancy count `None`, no captured panic. -/
def freshWindowData : WinState :=
  { queue := [], queueBorrowed := false, rentrancyCount := 0,
    panicSlot := none, delivered := [] }

/-- `WindowData::push` (`src/window.rs`, lines 789–792):
`self.message_queue.borrow_mut().push_back(event)`.  The `borrow_mut`
panics (`none`) if the queue is already mutably borrowed. -/
def push (s : WinState) (e : Event) : Option WinState :=
  if s.queueBorrowed then none
  else some { s with queue := s.queue ++ [e] }

/-- The `while let Some(event) = queue.pop_front()` loop of
`WindowData::process` (`src/window.rs`, lines 795–804), executed with the
`borrow_mut` guard held.  The state's `queue` field tracks the not-yet-popped
events at every step (the handler itself cannot touch the queue: any access
through the `RefCell` fails while the borrow is held). -/
def processLoop (h : Handler) : List Event → WinState → CResult WinState
  | [], s => .ok s
  | e :: rest, s =>
      match h e { s with queue := rest, delivered := s.delivered ++ [e] } with
      | .ok t => processLoop h rest t
      | r => r

/-- `WindowData::process` (`src/window.rs`, lines 795–804): take the
`borrow_mut` guard (panicking if the queue is already borrowed), run the
pop-and-dispatch loop, release the guard — also on unwind. -/
def process (h : Handler) (s : WinState) : CResult WinState :=
  if s.queueBorrowed then .panicked borrowPayload s
  else
    match processLoop h s.queue { s with queueBorrowed := true } with
    | .ok t => .ok { t with queueBorrowed := false }
    | .panicked p t => .panicked p { t with queueBorrowed := false }
    | .aborted => .aborted

/-- The guard dropped at the end of a `WindowData::begin` scope
(`src/window.rs`, lines 816–831): read the count (panicking if it is
`None`), decrement; at zero set `None` and run `process`, otherwise store
the decremented count. -/
def endScope (h : Handler) (s : WinState) : CResult WinState :=
  match s.rentrancyCount with
  | 0 => .panicked countPayload s
  | 1 => process h { s with rentrancyCount := 0 }
  | n + 2 => .ok { s with rentrancyCount := n + 1 }

/-- The count bump of `WindowData::begin` (`src/window.rs`, lines 833–846):
`None ↦ Some 1`, `Some n ↦ Some (n+1)` with `checked_add` failing (panic,
modelled `none`) exactly at `u32::MAX`. -/
def beginScope (s : WinState) : Option WinState :=
  if s.rentrancyCount = u32Max then none
  else some { s with rentrancyCount := s.rentrancyCount + 1 }

/-- The window messages `handle_window_message` (`src/wndproc.rs`)
distinguishes: `WM_NCCREATE`, `WM_NCDESTROY`, `WM_GETMINMAXINFO`,
`WM_CREATE`, and everything else (carried by its numeric code). -/
inductive Msg where
  | wmNcCreate
  | wmNcDestroy
  | wmGetMinMaxInfo
  | wmCreate
  | other (code : Nat)
deriving DecidableEq

/-- The client's shared state (`src/client.rs`, struct `Inner`):
`window_count: Cell<Option<NonZeroU32>>`, with `None` meaning "no windows
yet / application quitting".  `NonZeroU32` is modelled as `Nat`; the claim
that stored values are never zero is proved, not assumed. -/
structure ClientInner where
  windowCount : Option Nat
deriving DecidableEq

/-- `Client::window_count` (`src/client.rs`, lines 47–49):
`self.0.window_count.get().map_or(0, |count| count.get())`. -/
def window_count (c : ClientInner) : Nat :=
  match c.windowCount with
  | none => 0
  | some n => n

/-- `Client::increment_window_count` (`src/client.rs`, lines 63–74):
`None ↦ ONE`, `Some n ↦ Some (n+1)` with `checked_add` aborting
(`abort!("Window count overflowed")`, modelled `none`) exactly at
`u32::MAX`. -/
def increment_window_count (c : ClientInner) : Option ClientInner :=
  match c.windowCount with
  | none => some ⟨some 1⟩
  | some n => if n = u32Max then none else some ⟨some (n + 1)⟩

/-- `Client::decrement_window_count` (`src/client.rs`, lines 77–97).  A
`None` count hits `unreachable!("Count should never be zero in this case")`
(a panic, modelled `none`).  Otherwise `saturating_sub(1)`: at zero, post
`WM_QUIT` (`PostQuitMessage(0)`, the returned flag) and store `None`; else
store the decremented count. -/
def decrement_window_count (c : ClientInner) : Option (ClientInner × Bool) :=
  match c.windowCount with
  | none => none
  | some n =>
      match n - 1 with
      | 0 => some (⟨none⟩, true)
      | m + 1 => some (⟨some (m + 1)⟩, false)

/-- The closure that `handle_window_message` passes to `catch_panic`
(`src/wndproc.rs`, lines 172–189), including the drop of the `begin` guard,
which also runs while a panic is unwinding; a second panic raised by that
drop during unwinding aborts the process.  `WM_CREATE` pushes
`Event::Created`; every other message is only logged.  If `begin`'s
`checked_add` panics, the already-constructed guard still drops on the
not-yet-bumped count before the panic continues. -/
def trampolineBody (h : Handler) (m : Msg) (s : WinState) : CResult WinState :=
  match beginScope s with
  | none =>
      match endScope h s with
      | .ok t => .panicked overflowPayload t
      | _ => .aborted
  | some s1 =>
      match (if m = Msg.wmCreate then
               match push s1 Event.created with
               | some t => CResult.ok t
               | none => CResult.panicked borrowPayload s1
             else CResult.ok s1) with
      | .ok s2 => endScope h s2
      | .panicked p s2 =>
          match endScope h s2 with
          | .ok s3 => .panicked p s3
          | _ => .aborted
      | .aborted => .aborted

/-- `WindowData::catch_panic` (`src/window.rs`, lines 743–750), applied to
the outcome of running its closure: a caught panic payload is stored with
`self.panic.replace(Some(panic))`; if the slot already held a payload the
process aborts (`abort!("Two simultaneous panics in the same event
procedure.")`), modelled as `none`. -/
def catch_panic (r : CResult WinState) : Option WinState :=
  match r with
  | .ok s => some s
  | .panicked p s =>
      match s.panicSlot with
      | some _ => none
      | none => some { s with panicSlot := some p }
  | .aborted => none

/-- `WindowData::propagate_panic` (`src/window.rs`, lines 736–740):
`self.panic.take()`, and if a payload was present, `resume_unwind` it in the
caller's context.  The first component is the re-raised payload. -/
def propagate_panic (s : WinState) : Option Nat × WinState :=
  (s.panicSlot, { s with panicSlot := none })

/-- Outcome of one `handle_window_message` call that returned normally to
native code (via the default handler): the new contents of the
`GWLP_USERDATA` extensibility slot, the new client state, and whether a
quit notification was posted. -/
structure HwmOut where
  slot : Option WinState
  client : ClientInner
  postedQuit : Bool
deriving DecidableEq

/-- `handle_window_message` (`src/wndproc.rs`, lines 80–193).  `none` is a
process abort: every panic that escapes `catch_panic`'s catch — the
`unreachable!` in `decrement_window_count`, the `debug_assert_ne!` firing on
a missing window state (whose unchecked dereference is fatal in any build),
or a double panic — hits the surrounding `abort_on_panic` guard.

* null or invalid handles bail to the default handler untouched;
* `WM_NCCREATE` builds a fresh `WindowData` and installs it in the slot;
* `WM_NCDESTROY` clears the slot, drops the data and decrements the window
  count (possibly posting quit);
* any other message requires an installed window state, except
  `WM_GETMINMAXINFO`, which may legitimately arrive before `WM_NCCREATE`
  and bails to the default handler;
* with a state present, the message is handled inside `catch_panic`: a
  `begin` scope is opened, `WM_CREATE` pushes `Event::Created`, and the
  guard's release dispatches the queue once the count returns to zero. -/
def handle_window_message (h : Handler) (hwndNull : Bool) (isWindow : Bool)
    (msg : Msg) (slot : Option WinState) (client : ClientInner) : Option HwmOut :=
  if hwndNull then some ⟨slot, client, false⟩
  else if isWindow = false then some ⟨slot, client, false⟩
  else
    match msg with
    | .wmNcCreate => some ⟨some freshWindowData, client, false⟩
    | .wmNcDestroy =>
        match decrement_window_count client with
        | none => none
        | some (c, q) => some ⟨none, c, q⟩
    | m =>
        match slot with
        | none =>
            if m = Msg.wmGetMinMaxInfo then some ⟨none, client, false⟩
            else none
        | some wd =>
            match catch_panic (trampolineBody h m wd) with
            | none => none
            | some wd2 => some ⟨some wd2, client, false⟩

/-- Observable outcome of `Client::create_window`. -/
inductive CreateResult where
  | err
  | fatal
  | panicked (payload : Nat)
  | ok
deriving DecidableEq

/-- `Client::create_window` (`src/window.rs`, lines 63–121).  The
synchronous `CreateWindowExA` call is modelled as delivering `WM_NCCREATE`
followed by `WM_CREATE` through the window procedure (`nativeOk = false` is
the native failure path, which returns an error before any count change).
On success the window count is bumped (`increment_window_count`, aborting on
overflow) and then `window.as_window().propagate_panic()` re-raises any
panic captured during creation. -/
def create_window (h : Handler) (nativeOk : Bool) (client : ClientInner) :
    CreateResult × Option WinState × ClientInner :=
  if nativeOk = false then (.err, none, client)
  else
    match handle_window_message h false true Msg.wmNcCreate none client with
    | none => (.fatal, none, client)
    | some o1 =>
        match handle_window_message h false true Msg.wmCreate o1.slot o1.client with
        | none => (.fatal, o1.slot, o1.client)
        | some o2 =>
            match increment_window_count o2.client with
            | none => (.fatal, o2.slot, o2.client)
            | some c2 =>
                match o2.slot with
                | none => (.fatal, none, c2)
                | some wd =>
                    match propagate_panic wd with
                    | (some p, wd2) => (.panicked p, some wd2, c2)
                    | (none, wd2) => (.ok, some wd2, c2)

/-- A message in the thread's native message queue, as the reactor's drain
distinguishes them: `WM_QUIT` or anything else (by numeric code). -/
inductive NMsg where
  | quit
  | other (code : Nat)
deriving DecidableEq

/-- Result of `Reactor::drain_queue`: the `DrainStatus` fields `messages`
and `quit`, plus ghost instrumentation: `dispatched` records, in order, the
messages passed to `TranslateMessage`/`DispatchMessageA`, and `remaining`
the messages still in the native queue when the drain stopped. -/
structure DrainResult where
  messages : Nat
  quit : Bool
  dispatched : List NMsg
  remaining : List NMsg
deriving DecidableEq

/-- `Reactor::drain_queue` (`src/reactor.rs`, lines 135–172):
`PeekMessageA(.., PM_REMOVE)` until the queue is empty; each removed
message is counted; `WM_QUIT` sets the quit flag and breaks immediately
(without being dispatched); anything else is translated and dispatched.
The side effects of dispatching (the window procedure) are modelled
separately by `handle_window_message`. -/
def drain_queue : List NMsg → DrainResult
  | [] => ⟨0, false, [], []⟩
  | m :: rest =>
      if m = NMsg.quit then ⟨1, true, [], rest⟩
      else
        let r := drain_queue rest
        ⟨r.messages + 1, r.quit, m :: r.dispatched, r.remaining⟩

/-- Environment that `block_on` interacts with: the successive outcomes of
polling the future (`some r` = `Poll::Ready(r)`, `none` = `Poll::Pending`),
the native message queue, and the successive return codes of
`MsgWaitForMultipleObjectsEx`. -/
structure BEnv (R : Type) where
  polls : List (Option R)
  queue : List NMsg
  waits : List Nat
deriving DecidableEq

/-- Result of `block_on`: `ok (some r)` when the future completed, `ok none`
on quit, `error` on a failed native wait, and `stuck` when the fuel or the
modelled environment traces run out. -/
inductive BResult (R : Type) where
  | ok : Option R → BResult R
  | error : BResult R
  | stuck : BResult R
deriving DecidableEq

/-- The `WAIT_FAILED` sentinel returned by a failed
`MsgWaitForMultipleObjectsEx` (`0xFFFFFFFF`). -/
def WAIT_FAILED : Nat := 4294967295

/-- Control position inside `Reactor::block_on`'s nested loops: about to
poll the future (top of the outer loop), or about to drain the message
queue (top of the inner loop). -/
inductive Phase where
  | pollTask
  | drainMessages
deriving DecidableEq

/-- `Reactor::block_on` (`src/reactor.rs`, lines 62–119) as a fuel-indexed
step function.  Outer loop (`Phase.pollTask`): poll the future; if ready,
return `Ok(Some(result))` at once.  Inner loop (`Phase.drainMessages`):
drain the queue; on quit return `Ok(None)`; otherwise wait, then match the
wait code — `0` breaks to the outer loop (poll again), `1` continues the
inner loop (drain again), `WAIT_FAILED` returns the error, and any other
code is logged (`tracing::warn!`) and falls out of the `match`, so the
inner loop's body ends and the loop repeats its drain. -/
def blockOnFrom {R : Type} : Nat → Phase → BEnv R → BResult R × BEnv R
  | 0, _, env => (.stuck, env)
  | fuel + 1, .pollTask, env =>
      match env.polls with
      | [] => (.stuck, env)
      | some r :: ps => (.ok (some r), { env with polls := ps })
      | none :: ps => blockOnFrom fuel .drainMessages { env with polls := ps }
  | fuel + 1, .drainMessages, env =>
      let d := drain_queue env.queue
      let env1 : BEnv R := { env with queue := d.remaining }
      if d.quit then (.ok none, env1)
      else
        match env1.waits with
        | [] => (.stuck, env1)
        | w :: ws =>
            let env2 : BEnv R := { env1 with waits := ws }
            if w = 0 then blockOnFrom fuel .pollTask env2
            else if w = 1 then blockOnFrom fuel .drainMessages env2
            else if w = WAIT_FAILED then (.error, env2)
            else blockOnFrom fuel .drainMessages env2

/-- `Reactor::block_on` starts at the top of its outer loop: poll first. -/
def block_on {R : Type} (fuel : Nat) (env : BEnv R) : BResult R × BEnv R :=
  blockOnFrom fuel Phase.pollTask env

/-- An inert user handler: returns normally without touching the window. -/
def hInert : Handler := fun _ s => .ok s

/-- A user handler that panics with payload `p` as soon as it runs. -/
def panicHandler (p : Nat) : Handler := fun _ s => .panicked p s

/-- A sequence of `WindowData::push` calls, left to right. -/
def pushAll (es : List Event) (s : WinState) : Option WinState :=
  match es with
  | [] => some s
  | e :: rest => (push s e).bind (pushAll rest)

/-- Release `n` nested `begin` guards in a row (each release runs the drop
closure `endScope`); stops at the first panic or abort. -/
def releaseN (h : Handler) : Nat → WinState → CResult WinState
  | 0, s => .ok s
  | n + 1, s =>
      match endScope h s with
      | .ok t => releaseN h n t
      | r => r

/-- A window-count operation: one `increment_window_count` or one
`decrement_window_count` call. -/
inductive CountOp where
  | inc
  | dec
deriving DecidableEq

/-- Run a sequence of window-count operations, stopping at the first abort
or panic; the quit flags of decrements are discarded. -/
def runCount : List CountOp → ClientInner → Option ClientInner
  | [], c => some c
  | .inc :: ops, c => (increment_window_count c).bind (runCount ops)
  | .dec :: ops, c =>
      (decrement_window_count c).bind fun cq => runCount ops cq.1

/-- The window-count invariant: the cell never stores "some zero" — it is
either `None` ("no windows") or a strictly positive count. -/
def invCount (c : ClientInner) : Prop :=
  match c.windowCount with
  | none => True
  | some n => 1 ≤ n

/-! ### Helper lemmas -/

/-- With an inert handler, the dispatch loop hands every queued event to the
handler in order and empties the queue, touching nothing else. -/
theorem processLoop_inert (q : List Event) (s : WinState) (hq : s.queue = q) :
    processLoop hInert q s = .ok { s with queue := [], delivered := s.delivered ++ q } := by
  induction q generalizing s with
  | nil =>
      obtain ⟨sq, sb, src, sp, sd⟩ := s
      simp_all [processLoop]
  | cons e rest ih =>
      obtain ⟨sq, sb, src, sp, sd⟩ := s
      simp only [processLoop, hInert]
      rw [ih _ rfl]
      simp

/-- With an inert handler, `process` on an unborrowed state delivers the
whole queue FIFO and empties it. -/
theorem process_inert (s : WinState) (hb : s.queueBorrowed = false) :
    process hInert s = .ok { s with queue := [], delivered := s.delivered ++ s.queue } := by
  obtain ⟨sq, sb, src, sp, sd⟩ := s
  subst hb
  simp only [process, Bool.false_eq_true, if_false]
  rw [processLoop_inert sq ⟨sq, true, src, sp, sd⟩ rfl]

/-- Releasing a guard at depth at least two only decrements the counter. -/
theorem endScope_inner (h : Handler) (s : WinState) (h2 : 2 ≤ s.rentrancyCount) :
    endScope h s = .ok { s with rentrancyCount := s.rentrancyCount - 1 } := by
  obtain ⟨sq, sb, src, sp, sd⟩ := s
  match src, h2 with
  | n + 2, _ => simp [endScope]

/-- Releasing the outermost guard (depth one, queue not borrowed) clears the
counter and dispatches the whole queue FIFO. -/
theorem endScope_outermost (s : WinState) (hb : s.queueBorrowed = false)
    (h1 : s.rentrancyCount = 1) :
    endScope hInert s =
      .ok { s with queue := [], rentrancyCount := 0,
                   delivered := s.delivered ++ s.queue } := by
  obtain ⟨sq, sb, src, sp, sd⟩ := s
  subst h1 hb
  simp only [endScope]
  rw [process_inert _ rfl]

/-- Pushes never deliver: a sequence of pushes on an unborrowed state only
appends the pushed events, in order, to the tail of the queue. -/
theorem pushAll_eq (es : List Event) (s : WinState) (hb : s.queueBorrowed = false) :
    pushAll es s = some { s with queue := s.queue ++ es } := by
  induction es generalizing s with
  | nil =>
      obtain ⟨sq, sb, src, sp, sd⟩ := s
      simp [pushAll]
  | cons e rest ih =>
      obtain ⟨sq, sb, src, sp, sd⟩ := s
      subst hb
      simp only [pushAll, push, Bool.false_eq_true, if_false, Option.some_bind]
      rw [ih ⟨sq ++ [e], false, src, sp, sd⟩ rfl]
      simp

/-- Releasing fewer guards than the current depth only decrements the
counter: queue and delivered list are untouched. -/
theorem releaseN_inner (k : Nat) (s : WinState) (hk : k < s.rentrancyCount) :
    releaseN hInert k s = .ok { s with rentrancyCount := s.rentrancyCount - k } := by
  induction k generalizing s with
  | zero =>
      obtain ⟨sq, sb, src, sp, sd⟩ := s
      simp [releaseN]
  | succ k ih =>
      obtain ⟨sq, sb, src, sp, sd⟩ := s
      simp only [WinState.rentrancyCount] at hk
      have h2 : 2 ≤ (⟨sq, sb, src, sp, sd⟩ : WinState).rentrancyCount := by
        simp only [WinState.rentrancyCount]; omega
      simp only [releaseN]
      rw [endScope_inner hInert ⟨sq, sb, src, sp, sd⟩ h2]
      simp only [WinState.rentrancyCount]
      rw [ih ⟨sq, sb, src - 1, sp, sd⟩ (by simp only [WinState.rentrancyCount]; omega)]
      simp only [WinState.rentrancyCount, CResult.ok.injEq, WinState.mk.injEq,
        true_and, and_true]
      omega

/-- Releasing exactly as many guards as the current depth dispatches the
whole queue FIFO at the last release and resets the counter. -/
theorem releaseN_all (s : WinState) (hb : s.queueBorrowed = false)
    (h1 : 1 ≤ s.rentrancyCount) :
    releaseN hInert s.rentrancyCount s =
      .ok { s with queue := [], rentrancyCount := 0,
                   delivered := s.delivered ++ s.queue } := by
  obtain ⟨n, hn⟩ : ∃ n, s.rentrancyCount = n + 1 := ⟨s.rentrancyCount - 1, by omega⟩
  rw [hn]
  clear h1
  induction n generalizing s with
  | zero =>
      simp only [releaseN, endScope_outermost s hb hn]
  | succ n ih =>
      have h2 : 2 ≤ s.rentrancyCount := by omega
      simp only [releaseN, endScope_inner hInert s h2]
      rw [hn]
      have := ih { s with rentrancyCount := n + 1 } hb rfl
      simpa using this

/-! ### Claim theorems -/

/-- C1: for every window state nested inside `N ≥ 1` re-entrant dispatch
scopes and every sequence of `push` calls made there, no queued event is
handed to the user handler until the outermost scope's guard is released
(releasing any `k < N` guards leaves the queue and the delivered list
untouched), and when the outermost release runs dispatch, the events are
delivered to the handler in exactly the FIFO order in which they were
pushed. -/
theorem reentrant_dispatch_fifo (s : WinState) (es : List Event)
    (hb : s.queueBorrowed = false) (hN : 1 ≤ s.rentrancyCount) :
    pushAll es s = some { s with queue := s.queue ++ es } ∧
    (∀ k, k < s.rentrancyCount →
      releaseN hInert k { s with queue := s.queue ++ es } =
        .ok { s with queue := s.queue ++ es,
                     rentrancyCount := s.rentrancyCount - k }) ∧
    releaseN hInert s.rentrancyCount { s with queue := s.queue ++ es } =
      .ok { s with queue := [], rentrancyCount := 0,
                   delivered := s.delivered ++ s.queue ++ es } := by
  obtain ⟨sq, sb, src, sp, sd⟩ := s
  subst hb
  refine ⟨pushAll_eq es ⟨sq, false, src, sp, sd⟩ rfl, ?_, ?_⟩
  · intro k hk
    exact releaseN_inner k ⟨sq ++ es, false, src, sp, sd⟩ hk
  · have h := releaseN_all ⟨sq ++ es, false, src, sp, sd⟩ rfl hN
    simpa [List.append_assoc] using h

/-- Witness for C1 at a concrete window state: depth two, one event already
queued, two more pushed while nested; both hypotheses hold, and releasing
one guard delivers nothing while releasing both delivers all three events
in FIFO order. -/
theorem reentrant_dispatch_fifo_witness :
    (⟨[Event.created], false, 2, none, []⟩ : WinState).queueBorrowed = false ∧
    1 ≤ (⟨[Event.created], false, 2, none, []⟩ : WinState).rentrancyCount ∧
    releaseN hInert 1 ⟨[Event.created, Event.nonExhaustive, Event.created], false, 2, none, []⟩ =
      .ok ⟨[Event.created, Event.nonExhaustive, Event.created], false, 1, none, []⟩ ∧
    releaseN hInert 2 ⟨[Event.created, Event.nonExhaustive, Event.created], false, 2, none, []⟩ =
      .ok ⟨[], false, 0, none, [Event.created, Event.nonExhaustive, Event.created]⟩ := by
  have h := reentrant_dispatch_fifo ⟨[Event.created], false, 2, none, []⟩
    [Event.nonExhaustive, Event.created] rfl (by decide)
  exact ⟨rfl, by decide, by simpa using h.2.1 1 (by decide), by simpa using h.2.2⟩

/-- C2 (amended): `push(event)` appends the event to the tail of the
pending queue with no side effect other than that mutation, and does not
fail whenever the queue is not currently being drained — including
re-entrantly inside dispatch scopes before processing begins; but a push
made while the queue's `RefCell` is mutably borrowed by an in-progress
dispatch (i.e. from inside the handler) panics instead of appending. -/
theorem push_appends_unless_draining (s : WinState) (e : Event) :
    (s.queueBorrowed = false → push s e = some { s with queue := s.queue ++ [e] }) ∧
    (s.queueBorrowed = true → push s e = none) := by
  obtain ⟨sq, sb, src, sp, sd⟩ := s
  constructor
  · intro hb; subst hb; simp [push]
  · intro hb; subst hb; simp [push]

/-- Witness for C2's amended statement: a push at re-entrancy depth three
with dispatch not in progress appends and succeeds; the same push during an
in-progress drain fails. -/
theorem push_appends_unless_draining_witness :
    push ⟨[Event.created], false, 3, none, []⟩ Event.nonExhaustive =
      some ⟨[Event.created, Event.nonExhaustive], false, 3, none, []⟩ ∧
    push ⟨[], true, 0, none, [Event.created]⟩ Event.nonExhaustive = none := by
  exact ⟨(push_appends_unless_draining ⟨[Event.created], false, 3, none, []⟩
            Event.nonExhaustive).1 rfl,
         (push_appends_unless_draining ⟨[], true, 0, none, [Event.created]⟩
            Event.nonExhaustive).2 rfl⟩

/-- Counterexample to C2 as stated: while `process` is draining the queue,
the queue's `RefCell` is mutably borrowed, so `push` called at the exact
state the handler runs in fails instead of appending; and a dispatch whose
handler triggers a synchronous re-entrant `WM_CREATE` (whose trampoline
calls `push`) ends in a process abort — the borrow panic unwinds through
the scope guard, whose own dispatch attempt panics again.  `push` is
therefore not safe to call while a dispatch of the queue is already in
progress. -/
theorem push_reentrant_during_dispatch_panics :
    push ⟨[], true, 0, none, [Event.created]⟩ Event.created = none ∧
    process (fun _ s => trampolineBody hInert Msg.wmCreate s)
        ⟨[Event.created], false, 0, none, []⟩ = CResult.aborted := by
  exact ⟨rfl, rfl⟩

/-- C3: if the user handler panics while running inside the trampoline
during window creation, the panic is captured into the window state's
deferred-panic slot and the trampoline returns normally to native code
(first conjunct: `handle_window_message` succeeds and the slot holds
exactly the payload), and `create_window` re-raises exactly that panic to
its caller immediately after the synchronous native creation call returns,
leaving the slot cleared — the panic is not silently swallowed. -/
theorem create_window_propagates_panic (p : Nat) (c : ClientInner)
    (hc : c.windowCount ≠ some u32Max) :
    handle_window_message (panicHandler p) false true Msg.wmCreate
        (some freshWindowData) c =
      some ⟨some { freshWindowData with panicSlot := some p, delivered := [Event.created] }, c, false⟩ ∧
    (create_window (panicHandler p) true c).1 = CreateResult.panicked p ∧
    (create_window (panicHandler p) true c).2.1 =
      some { freshWindowData with delivered := [Event.created] } := by
  refine ⟨rfl, ?_, ?_⟩ <;>
  · obtain ⟨wc⟩ := c
    cases wc with
    | none => rfl
    | some n =>
        have hn : n ≠ u32Max := fun h => hc (by rw [h])
        have hinc : increment_window_count ⟨some n⟩ = some ⟨some (n + 1)⟩ := by
          simp [increment_window_count, hn]
        have h1 : handle_window_message (panicHandler p) false true Msg.wmNcCreate
            none ⟨some n⟩ = some ⟨some freshWindowData, ⟨some n⟩, false⟩ := rfl
        have h2 : handle_window_message (panicHandler p) false true Msg.wmCreate
            (some freshWindowData) ⟨some n⟩ =
            some ⟨some { freshWindowData with panicSlot := some p, delivered := [Event.created] }, ⟨some n⟩, false⟩ := rfl
        simp [create_window, h1, h2, hinc, propagate_panic]
        try rfl

/-- Witness for C3: a handler panicking with payload `7` during creation of
the first window (count `None`, so the overflow hypothesis holds). -/
theorem create_window_propagates_panic_witness :
    (⟨none⟩ : ClientInner).windowCount ≠ some u32Max ∧
    (create_window (panicHandler 7) true ⟨none⟩).1 = CreateResult.panicked 7 := by
  exact ⟨by simp, (create_window_propagates_panic 7 ⟨none⟩ (by simp)).2.1⟩

/-- C4: `catch_panic` passes a normal return through; a caught panic is
stored into the window's deferred-panic slot when that slot is empty; and a
second caught panic while a previously captured payload is still present is
fatal (process abort, modelled `none`) — no state in which either payload
was overwritten or dropped is ever observable. -/
theorem catch_panic_defers_and_double_capture_fatal (p q : Nat) (s : WinState) :
    catch_panic (CResult.ok s) = some s ∧
    (s.panicSlot = none →
      catch_panic (CResult.panicked p s) = some { s with panicSlot := some p }) ∧
    (s.panicSlot = some q → catch_panic (CResult.panicked p s) = none) := by
  obtain ⟨sq, sb, src, sp, sd⟩ := s
  refine ⟨rfl, ?_, ?_⟩ <;>
  · intro h
    simp only at h
    subst h
    rfl

/-- Witness for C4: capturing payload `5` into an empty slot stores it;
capturing payload `5` while payload `3` is still deferred aborts. -/
theorem catch_panic_defers_and_double_capture_fatal_witness :
    catch_panic (CResult.panicked 5 ⟨[], false, 0, none, []⟩) =
      some ⟨[], false, 0, some 5, []⟩ ∧
    catch_panic (CResult.panicked 5 ⟨[], false, 0, some 3, []⟩) = none := by
  exact ⟨(catch_panic_defers_and_double_capture_fatal 5 0 ⟨[], false, 0, none, []⟩).2.1 rfl,
         (catch_panic_defers_and_double_capture_fatal 5 3 ⟨[], false, 0, some 3, []⟩).2.2 rfl⟩

/-- C5: in the trampoline, for every message other than `WM_NCCREATE`,
`WM_NCDESTROY` and `WM_GETMINMAXINFO` (the one legitimately possible before
creation completes), an empty extensibility slot is fatal
(`debug_assert_ne!` and the unchecked dereference behind it, modelled
`none`): processing never continues on a recoverable path, for any handler
and any client state. -/
theorem missing_window_state_is_fatal (h : Handler) (m : Msg) (c : ClientInner)
    (h1 : m ≠ Msg.wmNcCreate) (h2 : m ≠ Msg.wmNcDestroy)
    (h3 : m ≠ Msg.wmGetMinMaxInfo) :
    handle_window_message h false true m none c = none := by
  match m with
  | .wmNcCreate => exact absurd rfl h1
  | .wmNcDestroy => exact absurd rfl h2
  | .wmGetMinMaxInfo => exact absurd rfl h3
  | .wmCreate => rfl
  | .other k => rfl

/-- Witness for C5: a `WM_CREATE` arriving with no installed window state
aborts rather than dispatching. -/
theorem missing_window_state_is_fatal_witness :
    handle_window_message hInert false true Msg.wmCreate none ⟨none⟩ = none := by
  exact missing_window_state_is_fatal hInert Msg.wmCreate ⟨none⟩
    (by decide) (by decide) (by decide)

/-- Draining a queue whose first quit message sits behind `pre` dispatches
exactly `pre`, removes the quit message, sets the quit flag, and leaves
everything behind the quit message untouched. -/
theorem drain_queue_to_quit (pre post : List NMsg) (hq : NMsg.quit ∉ pre) :
    drain_queue (pre ++ NMsg.quit :: post) = ⟨pre.length + 1, true, pre, post⟩ := by
  induction pre with
  | nil => simp [drain_queue]
  | cons m rest ih =>
      have hm : ¬(m = NMsg.quit) := by
        intro h; exact hq (by simp [h])
      have hrest : NMsg.quit ∉ rest := fun h => hq (List.mem_cons_of_mem m h)
      simp only [List.cons_append, drain_queue, if_neg hm, List.append_eq]
      rw [ih hrest]
      simp

/-- C6: `block_on` polls the supplied task first; if the task is already
ready on that first poll, it returns `Ok(Some(value))` immediately — the
native message queue is not drained (it is returned untouched) and no
native wait is performed (the wait trace is untouched). -/
theorem block_on_ready_immediate {R : Type} (fuel : Nat) (v : R)
    (ps : List (Option R)) (q : List NMsg) (ws : List Nat) :
    block_on (fuel + 1) (⟨some v :: ps, q, ws⟩ : BEnv R) =
      (BResult.ok (some v), ⟨ps, q, ws⟩) := rfl

/-- C7 (amended): in `block_on`'s wait step, a failed native wait
(`WAIT_FAILED`) returns an error to the caller, and any unexpected wait
return code (neither `0`, the wake-signal index, nor `1`, the new-message
index, nor the failure sentinel) is logged and treated as "drain the queue
again": control falls out of the `match` to the top of the inner
drain-and-wait loop — not back to polling the task — and is not silently
dropped. -/
theorem wait_failure_and_unexpected_code {R : Type} (fuel : Nat)
    (ps : List (Option R)) (q : List NMsg) (w : Nat) (ws : List Nat)
    (hq : (drain_queue q).quit = false) :
    blockOnFrom (fuel + 1) Phase.drainMessages (⟨ps, q, WAIT_FAILED :: ws⟩ : BEnv R) =
      (BResult.error, ⟨ps, (drain_queue q).remaining, ws⟩) ∧
    (w ≠ 0 → w ≠ 1 → w ≠ WAIT_FAILED →
      blockOnFrom (fuel + 1) Phase.drainMessages (⟨ps, q, w :: ws⟩ : BEnv R) =
        blockOnFrom fuel Phase.drainMessages (⟨ps, (drain_queue q).remaining, ws⟩ : BEnv R)) := by
  constructor
  · simp [blockOnFrom, hq, WAIT_FAILED]
  · intro h0 h1 hf
    simp [blockOnFrom, hq, h0, h1, hf]

/-- Witness for C7's amended statement: wait code `258` (`WAIT_TIMEOUT`) is
unexpected; after logging, the reactor drains again, and a subsequent
`WAIT_FAILED` surfaces as an error. -/
theorem wait_failure_and_unexpected_code_witness :
    (drain_queue ([] : List NMsg)).quit = false ∧
    blockOnFrom 4 Phase.drainMessages (⟨[some 42], [], [WAIT_FAILED]⟩ : BEnv Nat) =
      (BResult.error, ⟨[some 42], [], []⟩) ∧
    blockOnFrom 4 Phase.drainMessages (⟨[some 42], [], [258, WAIT_FAILED]⟩ : BEnv Nat) =
      blockOnFrom 3 Phase.drainMessages (⟨[some 42], [], [WAIT_FAILED]⟩ : BEnv Nat) := by
  refine ⟨rfl, ?_, ?_⟩
  · exact (wait_failure_and_unexpected_code 3 [some 42] [] 0 [] rfl).1
  · exact (wait_failure_and_unexpected_code 3 [some 42] [] 258 [WAIT_FAILED] rfl).2
      (by decide) (by decide) (by decide)

/-- Counterexample to C7 as stated: with the future pending once and then
ready with `42`, an empty message queue, and wait codes `258` (unexpected)
then `WAIT_FAILED`, the reactor ends in an error with the second poll
outcome still unconsumed.  Had the unexpected code been treated as "poll
the task again", the second poll would have returned `Ok(Some(42))` before
the failing wait was ever reached. -/
theorem unexpected_wait_code_not_repoll :
    block_on 10 (⟨[none, some 42], [], [258, WAIT_FAILED]⟩ : BEnv Nat) =
      (BResult.error, ⟨[some 42], [], []⟩) ∧
    (block_on 10 (⟨[none, some 42], [], [258, WAIT_FAILED]⟩ : BEnv Nat)).1 ≠
      BResult.ok (some 42) := by
  exact ⟨rfl, by decide⟩

/-- C8: destroying the last live window (`WM_NCDESTROY` with the shared
count at one) clears the slot, decrements the count to the "no windows"
state `None`, and posts a quit notification; a subsequent drain cycle of
`block_on` (the future still pending) observes the posted quit behind any
earlier messages and terminates with `Ok(None)`. -/
theorem last_window_destroy_quits {R : Type} (h : Handler) (wd : WinState)
    (fuel : Nat) (ps : List (Option R)) (pre : List NMsg) (ws : List Nat)
    (hq : NMsg.quit ∉ pre) :
    handle_window_message h false true Msg.wmNcDestroy (some wd) ⟨some 1⟩ =
      some ⟨none, ⟨none⟩, true⟩ ∧
    block_on (fuel + 2) (⟨none :: ps, pre ++ [NMsg.quit], ws⟩ : BEnv R) =
      (BResult.ok none, ⟨ps, [], ws⟩) := by
  constructor
  · rfl
  · show blockOnFrom (fuel + 2) Phase.pollTask _ = _
    simp only [blockOnFrom]
    rw [show (pre ++ [NMsg.quit]) = pre ++ NMsg.quit :: [] from rfl,
      drain_queue_to_quit pre [] hq]
    simp

/-- Witness for C8: the sole remaining window is destroyed; the posted quit
sits behind one ordinary message and `block_on` returns `Ok(None)`. -/
theorem last_window_destroy_quits_witness :
    NMsg.quit ∉ [NMsg.other 5] ∧
    handle_window_message hInert false true Msg.wmNcDestroy
      (some freshWindowData) ⟨some 1⟩ = some ⟨none, ⟨none⟩, true⟩ ∧
    block_on 2 (⟨[none], [NMsg.other 5, NMsg.quit], []⟩ : BEnv Nat) =
      (BResult.ok none, ⟨[], [], []⟩) := by
  have h := last_window_destroy_quits (R := Nat) hInert freshWindowData 0 []
    [NMsg.other 5] [] (by decide)
  exact ⟨by decide, h.1, h.2⟩

/-- C9: when the reactor's drain encounters a quit message, it stops at
that message immediately: the quit message itself is not dispatched, and
the native messages still queued behind it are untouched in that drain
pass. -/
theorem drain_stops_at_quit (pre post : List NMsg) (hq : NMsg.quit ∉ pre) :
    (drain_queue (pre ++ NMsg.quit :: post)).quit = true ∧
    (drain_queue (pre ++ NMsg.quit :: post)).dispatched = pre ∧
    (drain_queue (pre ++ NMsg.quit :: post)).remaining = post := by
  rw [drain_queue_to_quit pre post hq]
  exact ⟨rfl, rfl, rfl⟩

/-- Witness for C9: two ordinary messages before the quit are dispatched,
the quit is not, and the message queued behind it stays in the queue. -/
theorem drain_stops_at_quit_witness :
    NMsg.quit ∉ [NMsg.other 2, NMsg.other 9] ∧
    (drain_queue [NMsg.other 2, NMsg.other 9, NMsg.quit, NMsg.other 4]).dispatched =
      [NMsg.other 2, NMsg.other 9] ∧
    (drain_queue [NMsg.other 2, NMsg.other 9, NMsg.quit, NMsg.other 4]).remaining =
      [NMsg.other 4] := by
  have h := drain_stops_at_quit [NMsg.other 2, NMsg.other 9] [NMsg.other 4] (by decide)
  exact ⟨by decide, h.2.1, h.2.2⟩

/-- Incrementing preserves the window-count invariant. -/
theorem increment_preserves_invCount (c c' : ClientInner) (hc : invCount c)
    (h : increment_window_count c = some c') : invCount c' := by
  obtain ⟨wc⟩ := c
  cases wc with
  | none =>
      simp only [increment_window_count] at h
      obtain rfl := Option.some_injective _ h
      simp [invCount]
  | some n =>
      simp only [increment_window_count] at h
      by_cases hn : n = u32Max
      · simp [hn] at h
      · rw [if_neg hn] at h
        obtain rfl := Option.some_injective _ h
        simp [invCount]

/-- Decrementing preserves the window-count invariant. -/
theorem decrement_preserves_invCount (c c' : ClientInner) (q : Bool)
    (h : decrement_window_count c = some (c', q)) : invCount c' := by
  obtain ⟨wc⟩ := c
  cases wc with
  | none => simp [decrement_window_count] at h
  | some n =>
      simp only [decrement_window_count] at h
      match hm : n - 1, h with
      | 0, h =>
          simp only [Option.some.injEq, Prod.mk.injEq] at h
          obtain ⟨rfl, rfl⟩ := h
          exact trivial
      | m + 1, h =>
          simp only [Option.some.injEq, Prod.mk.injEq] at h
          obtain ⟨rfl, rfl⟩ := h
          simp [invCount]

/-- Any panic-free sequence of increments and decrements preserves the
window-count invariant. -/
theorem runCount_preserves_invCount (ops : List CountOp) :
    ∀ c c', invCount c → runCount ops c = some c' → invCount c' := by
  induction ops with
  | nil =>
      intro c c' hc h
      simp only [runCount] at h
      obtain rfl := Option.some_injective _ h
      exact hc
  | cons op rest ih =>
      intro c c' hc h
      cases op with
      | inc =>
          simp only [runCount] at h
          match hi : increment_window_count c, h with
          | some c1, h =>
              simp only [Option.some_bind] at h
              exact ih c1 c' (increment_preserves_invCount c c1 hc hi) h
      | dec =>
          simp only [runCount] at h
          match hd : decrement_window_count c, h with
          | some (c1, q), h =>
              simp only [Option.some_bind] at h
              exact ih c1 c' (decrement_preserves_invCount c c1 q hd) h

/-- C10: starting from any state satisfying the invariant, the shared
window count is never stored as "some zero" after any sequence of
increment and decrement operations — it is either the distinguished "no
windows" state `None` or strictly positive; `window_count()` reports `0`
exactly in the "no windows" state; increment aborts on overflow of the
count; and decrement from the "no windows" state hits the `unreachable!`
(it cannot return normally). -/
theorem window_count_never_zero (ops : List CountOp) (c c' : ClientInner)
    (hc : invCount c) :
    (runCount ops c = some c' → invCount c') ∧
    (window_count c = 0 ↔ c.windowCount = none) ∧
    increment_window_count ⟨some u32Max⟩ = none ∧
    decrement_window_count ⟨none⟩ = none := by
  refine ⟨runCount_preserves_invCount ops c c' hc, ?_, by simp [increment_window_count], rfl⟩
  obtain ⟨wc⟩ := c
  cases wc with
  | none => simp [window_count]
  | some n =>
      simp only [invCount] at hc
      simp only [window_count]
      constructor
      · intro h; omega
      · intro h; exact absurd h (by simp)

/-- Witness for C10: from the "no windows" state (invariant holds), two
window creations followed by one destruction leave the count at one, which
satisfies the invariant. -/
theorem window_count_never_zero_witness :
    invCount ⟨none⟩ ∧
    runCount [CountOp.inc, CountOp.inc, CountOp.dec] ⟨none⟩ = some ⟨some 1⟩ ∧
    invCount ⟨some 1⟩ := by
  have h := window_count_never_zero [CountOp.inc, CountOp.inc, CountOp.dec]
    ⟨none⟩ ⟨some 1⟩ (by exact trivial)
  exact ⟨by exact trivial, rfl, h.1 rfl⟩

end Porcupine
